import Mathlib

/-!
Verification of the Quiz-App repository: a shallow embedding of the quiz
controller (`src/Home.jsx`) and the question provider
(`src/services/apiService.js`), together with theorems checking the
specification's claims about them.

Embedding conventions:
* JavaScript arrays become `List`, numbers become `Nat`/`ℤ`/`ℚ` as
  appropriate, `null`/`undefined` become `Option`.
* `Math.random()` is determinized: every function that shuffles takes the
  stream of random draws as an explicit argument. `Math.floor(Math.random()
  * (i + 1))` is modelled as `rand i % (i + 1)`: an arbitrary natural draw
  reduced into the exact range `[0, i]` the source expression produces.
* `decodeHtmlEntities` in the source is implemented with a DOM textarea
  element; it is an opaque string-to-string map from the embedding's point
  of view, so it is passed as an explicit `decode : String → String`
  argument to the provider functions.
* The React component state (the `useState` fields of `Home`) becomes the
  `HomeState` structure, and every handler becomes a state-to-state
  function.  A `useCallback` handler closes over the values of the render
  in which it was created and is only re-created when one of its declared
  dependencies changes; where that staleness is observable the embedding
  passes the captured values explicitly instead of reading the committed
  state: `handleTimeUp` takes the `NextQuestionClosure` its memo holds
  (captured when `isAnswerLocked` last changed value, or at mount), and
  `finishQuiz` takes the answers list captured by the `calculateStreak`
  definition it calls (that of the quiz-start render).  Functional setter
  calls (`set(prev => ...)`) are applied to the committed state; plain
  `set(value)` calls overwrite it.  A handler that performs work after a
  pure display delay (`handleAnswerSubmit`, `handleTimeUp` schedule the
  advance behind a `setTimeout` while the answer is locked, so no other
  mutation can interleave) is modelled as the composition of both steps.
* `fetch` and the network are determinized by a `TransportOutcome` argument
  describing what the single HTTP request did.
-/

namespace QuizApp

/-! ## Question provider (`src/services/apiService.js`) -/

/-- One raw question object from the trivia API's `results` array. -/
structure RawQuestion where
  question : String
  correct_answer : String
  incorrect_answers : List String
  difficulty : String
  category : String
deriving DecidableEq

/-- The JSON body returned by the trivia API. -/
structure ApiResponse where
  response_code : Nat
  results : List RawQuestion
deriving DecidableEq

/-- A normalized question record, as produced by `transformQuestion`. -/
structure Question where
  id : Nat
  question : String
  options : List String
  correctAnswerIndex : Nat
  difficulty : String
  category : String
deriving DecidableEq

/-- The destructuring swap `[a[i], a[j]] = [a[j], a[i]]` inside
`shuffleArray`.  Both indices are in bounds on every call the source makes
(`j ≤ i < length`); the fallthrough branch only totalizes the function. -/
def listSwap {α : Type} (l : List α) (i j : Nat) : List α :=
  match l[i]?, l[j]? with
  | some a, some b => (l.set i b).set j a
  | _, _ => l

/-- The Fisher–Yates loop of `shuffleArray`: `for (let i = len - 1; i > 0;
i--)` swapping position `i` with position `rand i % (i + 1)`, the model of
`Math.floor(Math.random() * (i + 1))`. -/
def shuffleStep {α : Type} (rand : Nat → Nat) : Nat → List α → List α
  | 0, shuffled => shuffled
  | i + 1, shuffled => shuffleStep rand i (listSwap shuffled (i + 1) (rand (i + 1) % (i + 1 + 1)))

/-- `shuffleArray` from `apiService.js`: copies the array and runs the
Fisher–Yates loop from index `length - 1` down to `1`. -/
def shuffleArray {α : Type} (rand : Nat → Nat) (array : List α) : List α :=
  shuffleStep rand (array.length - 1) array

/-- `transformQuestion` from `apiService.js`: combine the correct answer
with the incorrect ones, shuffle, and record the index `findIndex` returns
for the correct answer.  (`findIndex` returns `-1` when the element is
absent while `List.findIdx` returns the length; the element is always
present here, see `transform_correct_option_text`.) -/
def transformQuestion (decode : String → String) (rand : Nat → Nat)
    (apiQuestion : RawQuestion) (index : Nat) : Question :=
  let allAnswers := apiQuestion.correct_answer :: apiQuestion.incorrect_answers
  let shuffledAnswers := shuffleArray rand allAnswers
  let correctAnswerIndex := shuffledAnswers.findIdx fun answer => answer == apiQuestion.correct_answer
  { id := index + 1
  , question := decode apiQuestion.question
  , options := shuffledAnswers.map decode
  , correctAnswerIndex := correctAnswerIndex
  , difficulty := apiQuestion.difficulty
  , category := apiQuestion.category }

/-- Helper for `jsIncludes`: does `s` start with `pat`? -/
def startsWithChars : List Char → List Char → Bool
  | [], _ => true
  | _ :: _, [] => false
  | c :: cs, d :: ds => c == d && startsWithChars cs ds

/-- Helper for `jsIncludes`: does `pat` occur contiguously in `s`? -/
def containsChars (pat : List Char) : List Char → Bool
  | [] => startsWithChars pat []
  | d :: rest => startsWithChars pat (d :: rest) || containsChars pat rest

/-- JavaScript's case-sensitive `String.prototype.includes`. -/
def jsIncludes (s pat : String) : Bool :=
  containsChars pat.data s.data

/-- The message thrown for each non-zero provider status code in the
`switch (data.response_code)` of `fetchQuizQuestions`. -/
def apiCodeMessage (code : Nat) : String :=
  match code with
  | 1 => "No questions found for the specified criteria. Try different settings."
  | 2 => "Invalid parameter in request."
  | 3 => "Token not found."
  | 4 => "Token empty."
  | 5 => "Rate limit exceeded. Please wait before making another request."
  | _ => "Unknown API error occurred."

/-- The `catch` block of `fetchQuizQuestions`: an `AbortError` becomes the
timeout message, a message containing `Failed to fetch` or `NetworkError`
becomes the network message, and anything else is rethrown with its own
message (or the fallback when the message is empty). -/
def rewrapFetchError (name msg : String) : String :=
  if name == "AbortError" then
    "Request timed out. Please check your internet connection and try again."
  else if jsIncludes msg "Failed to fetch" || jsIncludes msg "NetworkError" then
    "Network error. Please check your internet connection and try again."
  else if msg == "" then
    "Failed to fetch quiz questions. Please try again."
  else msg

/-- What the single `fetch` of `fetchQuizQuestions` did.  `timeout` is the
10-second abort, `fetchFailed msg` is `fetch` rejecting with an error whose
message is `msg`, and `httpResponse ok status body` is a completed request
(`ok`/`status` from the transport, `body` the parsed JSON). -/
inductive TransportOutcome where
  | timeout
  | fetchFailed (msg : String)
  | httpResponse (ok : Bool) (status : Nat) (body : ApiResponse)
deriving DecidableEq

/-- `fetchQuizQuestions` from `apiService.js`.  `difficulty`, `category`
and `amount` only feed the request URL in the source, so they do not affect
the result beyond being sent; `rand index` supplies the random draws used
to shuffle question number `index`.  Every `throw` inside the `try` flows
through the `catch`, which is `rewrapFetchError` here. -/
def fetchQuizQuestions (decode : String → String) (rand : Nat → Nat → Nat)
    (difficulty category : String) (amount : Nat)
    (outcome : TransportOutcome) : Except String (List Question) :=
  match outcome with
  | TransportOutcome.timeout =>
      Except.error (rewrapFetchError "AbortError" "")
  | TransportOutcome.fetchFailed msg =>
      Except.error (rewrapFetchError "Error" msg)
  | TransportOutcome.httpResponse ok status data =>
      if !ok then
        Except.error (rewrapFetchError "Error" ("HTTP error! status: " ++ toString status))
      else if data.response_code == 0 then
        if data.results.length == 0 then
          Except.error (rewrapFetchError "Error" "No questions received from the API.")
        else
          Except.ok (data.results.mapIdx fun index question =>
            transformQuestion decode (rand index) question index)
      else
        Except.error (rewrapFetchError "Error" (apiCodeMessage data.response_code))

/-! ## Quiz controller (`src/Home.jsx`) -/

/-- The five screens of the controller's state machine. -/
inductive GameState where
  | start
  | loading
  | quiz
  | results
  | error
deriving DecidableEq

/-- The record `handleNextQuestion` appends to `userAnswers` for each
finalized question.  `correctAnswerText` and `userAnswerText` are `Option`
because an out-of-bounds array read is `undefined` in JavaScript. -/
structure AnswerRecord where
  questionId : Nat
  question : String
  selectedAnswer : Option Nat
  correctAnswer : Nat
  options : List String
  isCorrect : Bool
  correctAnswerText : Option String
  userAnswerText : Option String
  timeExpired : Bool
  category : String
  difficulty : String
deriving DecidableEq

/-- The `userStats` state: best score percentage, quizzes played, best
streak.  `highScore` is an integer because it stores the rounded
percentage. -/
structure UserStats where
  highScore : ℤ
  totalQuizzes : Nat
  bestStreak : Nat
deriving DecidableEq

/-- The `quizSettings` state. -/
structure QuizSettings where
  difficulty : String
  category : String
  amount : Nat
deriving DecidableEq

/-- Each question gets 30 seconds before auto timeout. -/
def TIMER_DURATION : Nat := 30

/-- The complete component state of `Home`: one field per `useState`
declaration, in source order, plus `storage`, the browser's durable
key-value store (`localStorage`).  The source never reads or writes that
store — carrying it in the state is what lets the embedding say so. -/
structure HomeState where
  gameState : GameState
  questions : List Question
  currentQuestionIndex : Nat
  selectedAnswer : Option Nat
  userAnswers : List AnswerRecord
  score : Nat
  timeLeft : Nat
  isAnswerLocked : Bool
  error : String
  showAnswerFeedback : Bool
  quizSettings : QuizSettings
  userStats : UserStats
  storage : List (String × ℤ)
deriving DecidableEq

/-- The `useState` initial values of `Home`, with an empty durable store. -/
def initialHomeState : HomeState :=
  { gameState := GameState.start
  , questions := []
  , currentQuestionIndex := 0
  , selectedAnswer := none
  , userAnswers := []
  , score := 0
  , timeLeft := TIMER_DURATION
  , isAnswerLocked := false
  , error := ""
  , showAnswerFeedback := false
  , quizSettings := { difficulty := "easy", category := "", amount := 10 }
  , userStats := { highScore := 0, totalQuizzes := 0, bestStreak := 0 }
  , storage := [] }

/-- The mount effect of `Home`: `setUserStats({ highScore: 75,
totalQuizzes: 12, bestStreak: 5 })` — hardcoded mock values, commented in
the source as "Mocked stats — in real world we'd sync from localStorage or
backend". -/
def mountStatsEffect (s : HomeState) : HomeState :=
  { s with userStats := { highScore := 75, totalQuizzes := 12, bestStreak := 5 } }

/-- The error-message mapping in the `catch` of `startQuiz`. -/
def mapErrorMessage (msg : String) : String :=
  if jsIncludes msg "network" || jsIncludes msg "fetch" then
    "Network error. Please check your internet connection and try again."
  else if jsIncludes msg "No questions" then
    "No questions found for the selected criteria. Please try different settings."
  else
    "Failed to load quiz questions. Please try again."

/-- `resetQuizState` from `Home.jsx`: reset every per-run counter.  It does
not touch `questions`, `error`, `gameState`, `quizSettings` or
`userStats`. -/
def resetQuizState (s : HomeState) : HomeState :=
  { s with currentQuestionIndex := 0
         , selectedAnswer := none
         , userAnswers := []
         , score := 0
         , timeLeft := TIMER_DURATION
         , isAnswerLocked := false
         , showAnswerFeedback := false }

/-- `handleAnswerSelect`: ignored once the answer is locked. -/
def handleAnswerSelect (s : HomeState) (answerIndex : Nat) : HomeState :=
  if s.isAnswerLocked then s
  else { s with selectedAnswer := some answerIndex }

/-- `calculateStreak` from `Home.jsx`: look at the last five recorded
answers (`userAnswers.slice(-5)`) and count backwards from the most recent
one while answers are correct.  The `correctAnswers` and `totalQuestions`
parameters are declared but never used in the source; `userAnswers` is the
component state the function closes over. -/
def calculateStreak (userAnswers : List AnswerRecord)
    (correctAnswers totalQuestions : Nat) : Nat :=
  let recentAnswers := userAnswers.drop (userAnswers.length - 5)
  (recentAnswers.reverse.takeWhile fun r => r.isCorrect).length

/-- `Math.round((finalScore / questions.length) * 100)` from `finishQuiz`,
in exact rational arithmetic.  Mathlib's `round` is `⌊x + 1/2⌋`, which is
`Math.round`'s round-half-up for the non-negative values occurring here. -/
def computePercentage (finalScore totalQuestions : Nat) : ℤ :=
  round ((finalScore : ℚ) / (totalQuestions : ℚ) * 100)

/-- The `userAnswers` list captured by the `calculateStreak` definition
that the finish-time `finishQuiz` memo calls.  `finishQuiz` is
`useCallback`-memoized with deps `[questions.length, userStats.highScore,
userStats.bestStreak]`; none of these changes between the start of a run
and its finish (the length is set by `startQuiz`, the two stats change only
inside `finishQuiz` itself), so the memo executing at finish is the one
created at the quiz-start render.  That render's `calculateStreak` closes
over the `userAnswers` of that render — the list `resetQuizState` has just
cleared, i.e. the empty list. -/
def finishCapturedAnswers : List AnswerRecord := []

/-- `finishQuiz` from `Home.jsx`, as the memoized closure in force at the
end of a run.  `capturedAnswers` is the answers list seen by the
`calculateStreak` it calls (see `finishCapturedAnswers`); the
`questions.length` and the `userStats` values read for the comparisons are
the captured ones, which are equal to the committed ones at finish because
the memo's deps have not changed since its creation, so they are read from
`s`.  The two `setUserStats(prev => ...)` calls are functional updates on
the committed stats, with both conditions evaluated against the captured
(pre-update) stats. -/
def finishQuiz (capturedAnswers : List AnswerRecord) (s : HomeState)
    (finalScore : Nat) : HomeState :=
  let percentage := computePercentage finalScore s.questions.length
  let currentStreak := calculateStreak capturedAnswers finalScore s.questions.length
  let statsAfterHigh :=
    if percentage > s.userStats.highScore then
      { s.userStats with highScore := percentage }
    else s.userStats
  let statsAfterStreak :=
    if currentStreak > s.userStats.bestStreak then
      { statsAfterHigh with bestStreak := currentStreak }
    else statsAfterHigh
  { s with userStats := statsAfterStreak, gameState := GameState.results }

/-- The dependency snapshot `[questions, currentQuestionIndex,
selectedAnswer, score]` captured by a `handleNextQuestion` memo.  The memo
is re-created whenever one of these four state fields changes, so the
*current* memo always carries the committed values — but a stale reference
to an *older* memo (held by `handleTimeUp`, see below) carries the values
of the render that created it. -/
structure NextQuestionClosure where
  questions : List Question
  currentQuestionIndex : Nat
  selectedAnswer : Option Nat
  score : Nat
deriving DecidableEq

/-- The body of `handleNextQuestion` from `Home.jsx`, executing with the
captured dependency snapshot `c` against the committed state `s`.  All
decisions (guard, correctness, record contents, last-question test) and the
`finishQuiz(isCorrect ? score + 1 : score)` argument use the captured
values; `setUserAnswers(prev => ...)`, `setScore(prev => ...)` and
`setCurrentQuestionIndex(prev => ...)` are functional updates on the
committed state, and the remaining setters store constants. -/
def handleNextQuestionWith (c : NextQuestionClosure) (s : HomeState) : HomeState :=
  match c.questions[c.currentQuestionIndex]? with
  | none => s
  | some currentQuestion =>
    let isCorrect : Bool :=
      match c.selectedAnswer with
      | none => false
      | some a => a == currentQuestion.correctAnswerIndex
    let answerData : AnswerRecord :=
      { questionId := currentQuestion.id
      , question := currentQuestion.question
      , selectedAnswer := c.selectedAnswer
      , correctAnswer := currentQuestion.correctAnswerIndex
      , options := currentQuestion.options
      , isCorrect := isCorrect
      , correctAnswerText := currentQuestion.options[currentQuestion.correctAnswerIndex]?
      , userAnswerText := c.selectedAnswer.bind fun a => currentQuestion.options[a]?
      , timeExpired := c.selectedAnswer.isNone
      , category := currentQuestion.category
      , difficulty := currentQuestion.difficulty }
    let newScore := if isCorrect then s.score + 1 else s.score
    if c.currentQuestionIndex < c.questions.length - 1 then
      { s with userAnswers := s.userAnswers ++ [answerData]
             , score := newScore
             , currentQuestionIndex := s.currentQuestionIndex + 1
             , selectedAnswer := none
             , timeLeft := TIMER_DURATION
             , isAnswerLocked := false }
    else
      { finishQuiz finishCapturedAnswers s (if isCorrect then c.score + 1 else c.score) with
          userAnswers := s.userAnswers ++ [answerData]
        , score := newScore }

/-- The dependency snapshot of the current state — what the
`handleNextQuestion` memo in force at event time carries, since the memo's
deps are exactly these four fields and it is re-created whenever any of
them changes. -/
def currentClosure (s : HomeState) : NextQuestionClosure :=
  { questions := s.questions
  , currentQuestionIndex := s.currentQuestionIndex
  , selectedAnswer := s.selectedAnswer
  , score := s.score }

/-- `handleNextQuestion` as invoked directly (the quiz screen's next/finish
button): the current memo, whose captured deps equal the committed
fields. -/
def handleNextQuestion (s : HomeState) : HomeState :=
  handleNextQuestionWith (currentClosure s) s

/-- The `handleNextQuestion` snapshot held by the `handleTimeUp` memo at a
question that was begun by an advance: the advance unlocks the answer, so
`handleTimeUp` (deps `[isAnswerLocked]`) is re-created at that render and
captures that render's `handleNextQuestion` — fresh there, because the
advance changed its deps too — whose `selectedAnswer` is always `none`
(the advance just cleared it).  A selection made afterwards re-creates
`handleNextQuestion` but not `handleTimeUp`, which keeps this snapshot. -/
def lockChangeClosure (s : HomeState) : NextQuestionClosure :=
  { questions := s.questions
  , currentQuestionIndex := s.currentQuestionIndex
  , selectedAnswer := none
  , score := s.score }

/-- The `handleNextQuestion` snapshot held by the `handleTimeUp` memo when
`isAnswerLocked` has never changed value since mount — in particular on
the first question of the first run: both memos are then still the mount
render's, where `questions` is `[]`, so the timeout advance's guard
`!questions[currentQuestionIndex]` makes it return without doing
anything. -/
def mountClosure : NextQuestionClosure :=
  { questions := []
  , currentQuestionIndex := 0
  , selectedAnswer := none
  , score := 0 }

/-- `handleTimeUp` composed with the advance it schedules.  `c` is the
`handleNextQuestion` snapshot held by the memo (see `lockChangeClosure` and
`mountClosure`); the lock it checks was captured when the lock last changed
— to the committed value, in every flow where the countdown can still be
running.  It locks the answer (the feedback flash is shown and then cleared
before advancing) and, because the lock prevents any interleaved selection,
the delayed advance runs on the same committed state. -/
def handleTimeUp (c : NextQuestionClosure) (s : HomeState) : HomeState :=
  if s.isAnswerLocked then s
  else handleNextQuestionWith c { s with isAnswerLocked := true, showAnswerFeedback := false }

/-- `handleAnswerSubmit` composed with the advance it schedules, guarded
exactly as the source: `if (selectedAnswer === null && !isAnswerLocked)
return;`.  Its memo deps are `[selectedAnswer, isAnswerLocked]`, so the
guard reads values equal to the committed ones, and on the path that
proceeds (a selection was just made, which re-created both this memo and
`handleNextQuestion` in the same render) the advance it captured is the
current one. -/
def handleAnswerSubmit (s : HomeState) : HomeState :=
  if s.selectedAnswer.isNone && !s.isAnswerLocked then s
  else handleNextQuestion { s with isAnswerLocked := true, showAnswerFeedback := false }

/-- One second of the countdown effect: it only runs in the `quiz` state
with time remaining and the answer unlocked; reaching zero triggers
`handleTimeUp`, with `c` the advance snapshot that memo holds. -/
def timerTick (c : NextQuestionClosure) (s : HomeState) : HomeState :=
  if s.gameState = GameState.quiz ∧ 0 < s.timeLeft ∧ s.isAnswerLocked = false then
    if s.timeLeft ≤ 1 then handleTimeUp c { s with timeLeft := 0 }
    else { s with timeLeft := s.timeLeft - 1 }
  else s

/-- `resetQuiz` from `Home.jsx`: back to the start screen, per-run counters
reset, error cleared.  `questions`, `quizSettings` and `userStats` are not
touched. -/
def resetQuiz (s : HomeState) : HomeState :=
  { resetQuizState s with gameState := GameState.start, error := "" }

/-- `startQuiz` from `Home.jsx`, with the provider's result supplied as
`fetched`.  The transient `loading` screen is folded into the final state
of the event.  On success the per-run state is reset, the error cleared and
`totalQuizzes` bumped (from the stats visible when the handler ran); on any
failure the message is mapped by `mapErrorMessage`. -/
def startQuiz (s : HomeState) (selectedDifficulty selectedCategory : String)
    (amount : Nat) (fetched : Except String (List Question)) : HomeState :=
  let s0 := { s with gameState := GameState.loading
                   , quizSettings := { difficulty := selectedDifficulty
                                     , category := selectedCategory
                                     , amount := amount } }
  match fetched with
  | Except.error msg =>
      { s0 with error := mapErrorMessage msg, gameState := GameState.error }
  | Except.ok fetchedQuestions =>
      if fetchedQuestions.length = 0 then
        { s0 with error := mapErrorMessage "No questions received from API. Please try different settings."
                , gameState := GameState.error }
      else
        let s1 := resetQuizState { s0 with questions := fetchedQuestions
                                         , gameState := GameState.quiz }
        { s1 with error := ""
                , userStats := { s1.userStats with totalQuizzes := s1.userStats.totalQuizzes + 1 } }

/-- `retryQuiz` from `Home.jsx`: `startQuiz` with the stored settings. -/
def retryQuiz (s : HomeState) (fetched : Except String (List Question)) : HomeState :=
  startQuiz s s.quizSettings.difficulty s.quizSettings.category s.quizSettings.amount fetched

/-- The discrete events the controller reacts to.  A `start` event carries
the determinized provider inputs (`decode`, random draws, transport
outcome) so that the fetch path is the one from `apiService.js`. -/
inductive Event where
  | select (i : Nat)
  | submit
  | advance
  | tick (c : NextQuestionClosure)
  | reset
  | start (difficulty category : String) (amount : Nat)
      (decode : String → String) (rand : Nat → Nat → Nat) (outcome : TransportOutcome)
  | retry (decode : String → String) (rand : Nat → Nat → Nat) (outcome : TransportOutcome)

/-- The controller's reaction to one event.  A `tick` carries the advance
snapshot held by the `handleTimeUp` memo in force; closing over every
snapshot keeps the reachable set a superset of the real executions. -/
def step (s : HomeState) : Event → HomeState
  | Event.select i => handleAnswerSelect s i
  | Event.submit => handleAnswerSubmit s
  | Event.advance => handleNextQuestion s
  | Event.tick c => timerTick c s
  | Event.reset => resetQuiz s
  | Event.start d c a decode rand outcome =>
      startQuiz s d c a (fetchQuizQuestions decode rand d c a outcome)
  | Event.retry decode rand outcome =>
      retryQuiz s (fetchQuizQuestions decode rand s.quizSettings.difficulty
        s.quizSettings.category s.quizSettings.amount outcome)

/-- The states the controller can reach: the mounted component (initial
`useState` values plus the stats mount effect) closed under events. -/
inductive Reachable : HomeState → Prop where
  | init : Reachable (mountStatsEffect initialHomeState)
  | step {s : HomeState} (h : Reachable s) (e : Event) : Reachable (step s e)

/-- Modelled from the spec: the Persistent Stats load the specification
describes (spec §3 and §6: the three scalars read from durable key-value
storage at app start, each absent key defaulting to zero).  The source has
no such load — its mount effect is `mountStatsEffect` — so this definition
follows the spec's words and exists only to be compared with the code. -/
def loadUserStatsSpec (storage : List (String × ℤ)) : UserStats :=
  { highScore := (storage.lookup "highScore").getD 0
  , totalQuizzes := ((storage.lookup "totalQuizzes").getD 0).toNat
  , bestStreak := ((storage.lookup "bestStreak").getD 0).toNat }

/-! ## Concrete fixtures used by witnesses and counterexamples -/

/-- A two-option question whose correct option is index 0. -/
def qA : Question :=
  { id := 1, question := "Q1", options := ["A", "B"], correctAnswerIndex := 0
  , difficulty := "easy", category := "Cat" }

/-- A recorded incorrect answer for `qA`. -/
def recWrong : AnswerRecord :=
  { questionId := 1, question := "Q1", selectedAnswer := some 1, correctAnswer := 0
  , options := ["A", "B"], isCorrect := false, correctAnswerText := some "A"
  , userAnswerText := some "B", timeExpired := false, category := "Cat"
  , difficulty := "easy" }

/-- A quiz in progress on the single question `qA`, with option 0 (the
correct one) selected but not submitted and the answer not locked. -/
def stateQuizSelected : HomeState :=
  { initialHomeState with gameState := GameState.quiz
                        , questions := [qA]
                        , selectedAnswer := some 0 }

/-- A results screen after a one-question run answered incorrectly. -/
def stateResults : HomeState :=
  { mountStatsEffect initialHomeState with
      gameState := GameState.results
    , questions := [qA]
    , userAnswers := [recWrong]
    , score := 0
    , isAnswerLocked := true }

/-- A raw API question. -/
def rawParis : RawQuestion :=
  { question := "Capital of France?", correct_answer := "Paris"
  , incorrect_answers := ["London", "Berlin", "Rome"], difficulty := "easy"
  , category := "Geography" }

/-- A successful API body carrying one result. -/
def apiOk1 : ApiResponse := { response_code := 0, results := [rawParis] }

/-- The score bookkeeping invariant of claim C2: the running score equals
the number of recorded answers marked correct. -/
def ScoreInv (s : HomeState) : Prop :=
  s.score = (s.userAnswers.filter fun r => r.isCorrect).length

/-! ## Helper lemmas -/

/-- Setting position `n` of a list changes the multiset of elements by
removing the old entry and adding the new one, stated through counts. -/
theorem count_set_swap_aux {α : Type} [BEq α] (b : α) :
    ∀ (l : List α) (n : Nat) (h : n < l.length) (a : α),
      ((l.set n b).count a) + (if l.get ⟨n, h⟩ == a then 1 else 0)
        = l.count a + (if b == a then 1 else 0)
  | x :: xs, 0, _, a => by
      simp [List.count_cons]
      omega
  | x :: xs, n + 1, h, a => by
      have ih := count_set_swap_aux b xs n (Nat.lt_of_succ_lt_succ h) a
      simp [List.count_cons] at ih ⊢
      omega

/-- The guarded destructuring swap is a permutation of its input. -/
theorem listSwap_perm {α : Type} [DecidableEq α] (l : List α) (i j : Nat) :
    List.Perm (listSwap l i j) l := by
  unfold listSwap
  split
  next a b hi hj =>
    obtain ⟨hi', hia⟩ := List.getElem?_eq_some_iff.mp hi
    obtain ⟨hj', hjb⟩ := List.getElem?_eq_some_iff.mp hj
    refine List.perm_iff_count.mpr fun c => ?_
    have hjlen : j < (l.set i b).length := by simpa using hj'
    have h1 := count_set_swap_aux b l i hi' c
    have h2 := count_set_swap_aux a (l.set i b) j hjlen c
    have hgb : (l.set i b).get ⟨j, hjlen⟩ = b := by
      by_cases hij : i = j
      · subst hij; simp
      · simp [List.get_eq_getElem, List.getElem_set, hij, hjb]
    have hga : l.get ⟨i, hi'⟩ = a := by simp [List.get_eq_getElem, hia]
    rw [hgb] at h2
    rw [hga] at h1
    split_ifs at h1 h2 <;> omega
  next =>
    exact List.Perm.refl l

/-- Every pass of the Fisher–Yates loop permutes the list. -/
theorem shuffleStep_perm {α : Type} [DecidableEq α] (rand : Nat → Nat) :
    ∀ (i : Nat) (l : List α), List.Perm (shuffleStep rand i l) l
  | 0, l => List.Perm.refl l
  | i + 1, l =>
      List.Perm.trans (shuffleStep_perm rand i _) (listSwap_perm l (i + 1) _)

/-- `shuffleArray` returns a permutation of its input. -/
theorem shuffleArray_perm {α : Type} [DecidableEq α]
    (rand : Nat → Nat) (array : List α) :
    List.Perm (shuffleArray rand array) array :=
  shuffleStep_perm rand (array.length - 1) array

/-- The correct answer is present in the shuffled answer list. -/
theorem correct_mem_shuffled (rand : Nat → Nat) (raw : RawQuestion) :
    raw.correct_answer ∈ shuffleArray rand (raw.correct_answer :: raw.incorrect_answers) :=
  ((shuffleArray_perm rand _).mem_iff).mpr (List.mem_cons_self _ _)

/-- `transformQuestion` always records an in-bounds correct-answer index. -/
theorem transformQuestion_index_lt (decode : String → String) (rand : Nat → Nat)
    (raw : RawQuestion) (index : Nat) :
    (transformQuestion decode rand raw index).correctAnswerIndex
      < (transformQuestion decode rand raw index).options.length := by
  have hmem := correct_mem_shuffled rand raw
  have hfind : (shuffleArray rand (raw.correct_answer :: raw.incorrect_answers)).findIdx
      (fun answer => answer == raw.correct_answer)
      < (shuffleArray rand (raw.correct_answer :: raw.incorrect_answers)).length :=
    List.findIdx_lt_length_of_exists ⟨_, hmem, by simp⟩
  simpa [transformQuestion] using hfind

/-- Rounding a ratio of a count over a positive total, scaled to 100, stays
within `[0, 100]`. -/
theorem computePercentage_bounds (finalScore total : Nat)
    (hle : finalScore ≤ total) (hpos : 0 < total) :
    0 ≤ computePercentage finalScore total ∧ computePercentage finalScore total ≤ 100 := by
  unfold computePercentage
  have ht : (0 : ℚ) < (total : ℚ) := by exact_mod_cast hpos
  have hfs : (finalScore : ℚ) ≤ (total : ℚ) := by exact_mod_cast hle
  have hx0 : (0 : ℚ) ≤ (finalScore : ℚ) / (total : ℚ) * 100 := by positivity
  have hx1 : (finalScore : ℚ) / (total : ℚ) * 100 ≤ 100 := by
    have hq : (finalScore : ℚ) / (total : ℚ) ≤ 1 := by
      rw [div_le_one ht]; exact hfs
    nlinarith
  constructor
  · rw [round_eq]
    have h0 : ((0 : ℤ) : ℚ) ≤ (finalScore : ℚ) / (total : ℚ) * 100 + 1 / 2 := by
      push_cast
      linarith
    exact Int.le_floor.mpr h0
  · rw [round_eq]
    have h101 : (finalScore : ℚ) / (total : ℚ) * 100 + 1 / 2 < ((101 : ℤ) : ℚ) := by
      push_cast
      linarith
    have := Int.floor_lt.mpr h101
    omega

/-- The advance body keeps the score equal to the number of correct
records for every captured snapshot: it appends exactly one record and
bumps the committed score exactly when that record is marked correct (the
same captured `isCorrect` gates both). -/
theorem handleNextQuestionWith_scoreInv (c : NextQuestionClosure) {s : HomeState}
    (h : ScoreInv s) : ScoreInv (handleNextQuestionWith c s) := by
  unfold ScoreInv at h ⊢
  unfold handleNextQuestionWith
  split
  · exact h
  next currentQuestion hq =>
    cases hsel : c.selectedAnswer with
    | none =>
        by_cases hlt : c.currentQuestionIndex < c.questions.length - 1 <;>
          simp [finishQuiz, hsel, hlt, List.filter_append, h]
    | some a =>
        by_cases hc : (a == currentQuestion.correctAnswerIndex) = true <;>
          by_cases hlt : c.currentQuestionIndex < c.questions.length - 1 <;>
            simp [finishQuiz, hsel, hc, hlt, List.filter_append, h]

/-- The direct advance preserves the score invariant. -/
theorem handleNextQuestion_scoreInv {s : HomeState} (h : ScoreInv s) :
    ScoreInv (handleNextQuestion s) :=
  handleNextQuestionWith_scoreInv (currentClosure s) h

/-- `handleTimeUp` preserves the score invariant for every snapshot. -/
theorem handleTimeUp_scoreInv (c : NextQuestionClosure) {s : HomeState}
    (h : ScoreInv s) : ScoreInv (handleTimeUp c s) := by
  unfold handleTimeUp
  split
  · exact h
  · exact handleNextQuestionWith_scoreInv c h

/-- `handleAnswerSubmit` preserves the score invariant. -/
theorem handleAnswerSubmit_scoreInv {s : HomeState} (h : ScoreInv s) :
    ScoreInv (handleAnswerSubmit s) := by
  unfold handleAnswerSubmit
  split
  · exact h
  · exact handleNextQuestion_scoreInv h

/-- A timer tick preserves the score invariant for every snapshot. -/
theorem timerTick_scoreInv (c : NextQuestionClosure) {s : HomeState}
    (h : ScoreInv s) : ScoreInv (timerTick c s) := by
  unfold timerTick
  split
  · split
    · exact handleTimeUp_scoreInv c h
    · exact h
  · exact h

/-- `startQuiz` preserves the score invariant for every provider result:
failure leaves score and records untouched, success resets both. -/
theorem startQuiz_scoreInv {s : HomeState} (d c : String) (a : Nat)
    (fetched : Except String (List Question)) (h : ScoreInv s) :
    ScoreInv (startQuiz s d c a fetched) := by
  unfold startQuiz
  match fetched with
  | Except.error msg => exact h
  | Except.ok qs =>
      by_cases hlen : qs.length = 0 <;> simp [hlen, resetQuizState, ScoreInv] <;> exact h

/-- Every controller event preserves the score invariant. -/
theorem step_scoreInv {s : HomeState} (e : Event) (h : ScoreInv s) :
    ScoreInv (step s e) := by
  cases e with
  | select i =>
      show ScoreInv (handleAnswerSelect s i)
      unfold handleAnswerSelect
      split
      · exact h
      · exact h
  | submit => exact handleAnswerSubmit_scoreInv h
  | advance => exact handleNextQuestion_scoreInv h
  | tick c => exact timerTick_scoreInv c h
  | reset => exact rfl
  | start d c a decode rand outcome => exact startQuiz_scoreInv d c a _ h
  | retry decode rand outcome => exact startQuiz_scoreInv _ _ _ _ h

/-! ## Claim C1 -/

/-- Claim C1: evaluation of the timeout advance at the failing input and at
a steady-state input, against the snapshots the `handleTimeUp` memo can
hold.  On question 1 of the first run after mount (`stateQuizSelected`:
question `qA` loaded, option 0 selected but unsubmitted, not locked) the
memo still holds the mount snapshot, whose question list is empty: the
timeout appends no Answer Record at all — the state merely becomes locked,
still on the same question of the quiz screen — contradicting the claimed
record append (which the source's own comments promise as auto-progress).
At any question begun by an advance the memo holds `lockChangeClosure`,
whose selection is always the no-selection sentinel, so the timeout
advance appends a record with `selectedAnswer = none` and correctness
`false` and leaves the score unchanged, regardless of the committed
unsubmitted selection — exactly the claimed behavior. -/
theorem timeUp_mount_noop_and_pinned_null_record :
    (handleTimeUp mountClosure stateQuizSelected).userAnswers = []
    ∧ (handleTimeUp mountClosure stateQuizSelected).score = 0
    ∧ (handleTimeUp mountClosure stateQuizSelected).isAnswerLocked = true
    ∧ (handleTimeUp mountClosure stateQuizSelected).currentQuestionIndex = 0
    ∧ (handleTimeUp mountClosure stateQuizSelected).gameState = GameState.quiz
    ∧ ((handleTimeUp (lockChangeClosure stateQuizSelected) stateQuizSelected).userAnswers.map
        fun r => r.selectedAnswer) = [none]
    ∧ ((handleTimeUp (lockChangeClosure stateQuizSelected) stateQuizSelected).userAnswers.map
        fun r => r.isCorrect) = [false]
    ∧ (handleTimeUp (lockChangeClosure stateQuizSelected) stateQuizSelected).score = 0 := by
  decide

/-! ## Claim C2 -/

/-- Claim C2: in every reachable session state the running score equals the
number of recorded answers whose correctness flag is true; and the
finalization percentage `round(finalScore·100/total)` lies in `[0, 100]`
whenever `finalScore ≤ total` and there is at least one question. -/
theorem score_matches_correct_count_and_percentage_bounds :
    (∀ s : HomeState, Reachable s →
        s.score = (s.userAnswers.filter fun r => r.isCorrect).length)
    ∧ ∀ finalScore total : Nat, finalScore ≤ total → 0 < total →
        0 ≤ computePercentage finalScore total ∧ computePercentage finalScore total ≤ 100 := by
  constructor
  · intro s hs
    induction hs with
    | init => rfl
    | step h e ih => exact step_scoreInv e ih
  · exact computePercentage_bounds

/-- Claim C2, witness: the invariant at the mounted initial state and the
percentage bounds at `finalScore = 3`, `total = 5`. -/
theorem score_matches_correct_count_and_percentage_bounds_witness :
    ((mountStatsEffect initialHomeState).score
        = ((mountStatsEffect initialHomeState).userAnswers.filter fun r => r.isCorrect).length)
    ∧ (0 ≤ computePercentage 3 5 ∧ computePercentage 3 5 ≤ 100) :=
  ⟨score_matches_correct_count_and_percentage_bounds.1 _ Reachable.init,
   score_matches_correct_count_and_percentage_bounds.2 3 5 (by decide) (by decide)⟩

/-! ## Claim C3 -/

/-- Claim C3: evaluation at the failing input — a one-question run
answered correctly with stored best streak 0.  The completed run's
trailing streak over the last-5 window including the final record is 1,
but the finish-time `finishQuiz` memo evaluates the quiz-start
`calculateStreak`, whose captured answers list is empty
(`finishCapturedAnswers`), so the value compared against the stored best
streak is 0 and the stored best streak is not replaced — the streak update
the source's comments describe never fires for the run's own answers. -/
theorem finish_streak_compared_is_pinned_empty :
    (handleNextQuestion stateQuizSelected).gameState = GameState.results
    ∧ (handleNextQuestion stateQuizSelected).userStats.bestStreak = 0
    ∧ calculateStreak (handleNextQuestion stateQuizSelected).userAnswers
        (handleNextQuestion stateQuizSelected).score
        (handleNextQuestion stateQuizSelected).questions.length = 1
    ∧ calculateStreak finishCapturedAnswers 1 1 = 0 := by
  have hpct : computePercentage 1 1 = 100 := by
    unfold computePercentage
    norm_num
  refine ⟨?_, ?_, ?_, ?_⟩ <;>
    simp [handleNextQuestion, handleNextQuestionWith, currentClosure, stateQuizSelected,
      qA, initialHomeState, finishQuiz, finishCapturedAnswers, calculateStreak, hpct]

/-! ## Claim C4 -/

/-- Claim C4, counterexample: applying reset on a results state with a
non-empty question list does not yield the same Session State as applying
reset in the initial start state — the stored question list is not cleared
(and the configuration-independent stats differ as well). -/
theorem reset_not_same_as_reset_from_start_cx :
    resetQuiz stateResults ≠ resetQuiz initialHomeState
    ∧ (resetQuiz stateResults).questions = [qA]
    ∧ (resetQuiz initialHomeState).questions = [] := by
  decide

/-- Claim C4 as amended: from every state, reset returns to the start
screen with the question position, selection, answer history, score,
countdown, lock, feedback flag and error message cleared to their defaults
— but the stored question list (as well as the quiz configuration and the
user stats) is retained, so two resets agree exactly on the cleared
fields. -/
theorem resetQuiz_clears_per_run_fields (s : HomeState) :
    resetQuiz s = { s with
        gameState := GameState.start,
        currentQuestionIndex := 0,
        selectedAnswer := none,
        userAnswers := [],
        score := 0,
        timeLeft := TIMER_DURATION,
        isAnswerLocked := false,
        showAnswerFeedback := false,
        error := "" } := rfl

/-! ## Claim C5 -/

/-- Claim C5, counterexample: a response with provider code ok and a
non-empty results list of length 1 against a requested `amount = 2` makes
the fetch return 1 question, not `amount` — the fetch returns exactly as
many questions as the response carries, with no check against `amount`. -/
theorem fetch_count_not_amount_cx :
    (fetchQuizQuestions id (fun i k => 0) "easy" "" 2
        (TransportOutcome.httpResponse true 200 apiOk1)).toOption.map List.length = some 1
    ∧ (fetchQuizQuestions id (fun i k => 0) "easy" "" 2
        (TransportOutcome.httpResponse true 200 apiOk1)).toOption.map List.length ≠ some 2 := by
  decide

/-- Claim C5 as amended: for every valid input and every successful
provider response (code ok, non-empty results) that carries exactly
`amount` results — which is what the provider's ok code promises — the
fetch succeeds with exactly `amount` transformed questions, and every
returned question's correct-option index is a valid index into its options
list. -/
theorem fetch_ok_returns_results_with_bounds (decode : String → String)
    (rand : Nat → Nat → Nat) (difficulty category : String) (amount : Nat)
    (data : ApiResponse) (hcode : data.response_code = 0)
    (hne : data.results.length ≠ 0) (hamt : data.results.length = amount) :
    fetchQuizQuestions decode rand difficulty category amount
        (TransportOutcome.httpResponse true 200 data)
      = Except.ok (data.results.mapIdx fun index question =>
          transformQuestion decode (rand index) question index)
    ∧ (data.results.mapIdx fun index question =>
          transformQuestion decode (rand index) question index).length = amount
    ∧ ∀ q ∈ (data.results.mapIdx fun index question =>
          transformQuestion decode (rand index) question index),
        q.correctAnswerIndex < q.options.length := by
  refine ⟨?_, ?_, ?_⟩
  · simp [fetchQuizQuestions, hcode, hne]
  · simpa using hamt
  · intro q hq
    obtain ⟨i, h, rfl⟩ := List.exists_of_mem_mapIdx hq
    exact transformQuestion_index_lt decode (rand i) _ i

/-- Claim C5 amended, witness at a concrete ok response with one result. -/
theorem fetch_ok_returns_results_with_bounds_witness :
    fetchQuizQuestions id (fun i k => 0) "easy" "" 1
        (TransportOutcome.httpResponse true 200 apiOk1)
      = Except.ok (apiOk1.results.mapIdx fun index question =>
          transformQuestion id ((fun i k => 0) index) question index) :=
  (fetch_ok_returns_results_with_bounds id (fun i k => 0) "easy" "" 1 apiOk1
    rfl (by decide) rfl).1

/-! ## Claim C6 -/

/-- Claim C6: the provider's shuffle returns a permutation of its input
list for every sequence of random draws — in particular the multiset of
entries (option texts) is preserved.  (The embedding is pure, so the input
list itself is a value that cannot be mutated; `shuffleArray` also
explicitly copies before swapping, as in the source.) -/
theorem shuffleArray_is_permutation {α : Type} [DecidableEq α]
    (rand : Nat → Nat) (array : List α) :
    List.Perm (shuffleArray rand array) array
    ∧ (↑(shuffleArray rand array) : Multiset α) = (↑array : Multiset α) :=
  ⟨shuffleArray_perm rand array, Multiset.coe_eq_coe.mpr (shuffleArray_perm rand array)⟩

/-! ## Claim C7 -/

/-- Claim C7: the code violates the claimed error mapping for network
failures.  A transport failure (`fetch` rejecting with `Failed to fetch`)
is rethrown by the provider as `Network error. Please check your internet
connection and try again.`, but the controller's check
`err.message.includes('network') || err.message.includes('fetch')` is
case-sensitive and that message contains neither lowercase `network` nor
`fetch` — so the controller stores the generic message instead of the
connectivity-specific one.  The empty-result and no-matching-questions
messages do map to the try-different-settings message as claimed. -/
theorem network_failure_maps_to_generic_message :
    fetchQuizQuestions id (fun i k => 0) "easy" "" 10
        (TransportOutcome.fetchFailed "Failed to fetch")
      = Except.error "Network error. Please check your internet connection and try again."
    ∧ mapErrorMessage "Network error. Please check your internet connection and try again."
      = "Failed to load quiz questions. Please try again."
    ∧ mapErrorMessage "No questions received from the API."
      = "No questions found for the selected criteria. Please try different settings."
    ∧ mapErrorMessage "No questions found for the specified criteria. Try different settings."
      = "No questions found for the selected criteria. Please try different settings." := by
  exact ⟨rfl, rfl, rfl, rfl⟩

/-! ## Claim C8 -/

/-- Claim C8, counterexample: at application start (empty durable store,
so every key is absent) the spec-modelled load would produce all-zero
stats, but the code's mount effect installs the hardcoded mock values
`{75, 12, 5}` without consulting storage. -/
theorem stats_are_mocked_not_loaded_cx :
    (mountStatsEffect initialHomeState).userStats
        = { highScore := 75, totalQuizzes := 12, bestStreak := 5 }
    ∧ loadUserStatsSpec initialHomeState.storage
        = { highScore := 0, totalQuizzes := 0, bestStreak := 0 }
    ∧ (mountStatsEffect initialHomeState).userStats
        ≠ loadUserStatsSpec initialHomeState.storage := by
  decide

/-- Claim C8 as amended: at application start the three stats scalars are
set to the hardcoded mock values 75/12/5 regardless of what the durable
store contains, and quiz finalization (the advance on the last question,
which runs `finishQuiz`) updates the stats in memory only, never writing
to durable storage. -/
theorem stats_mock_and_no_storage_write :
    (∀ st : List (String × ℤ),
        (mountStatsEffect { initialHomeState with storage := st }).userStats
          = { highScore := 75, totalQuizzes := 12, bestStreak := 5 })
    ∧ ∀ s : HomeState, (handleNextQuestion s).storage = s.storage := by
  constructor
  · intro st
    rfl
  · intro s
    unfold handleNextQuestion handleNextQuestionWith
    split
    · rfl
    · split <;> split <;> simp [finishQuiz]

/-! ## Claim C9 -/

/-- Claim C9: with no option selected and the answer not locked, the
submit-answer intent leaves the entire state unchanged — nothing appended,
score, position, lock, countdown and screen all as before. -/
theorem submit_without_selection_is_noop (s : HomeState)
    (hsel : s.selectedAnswer = none) (hlock : s.isAnswerLocked = false) :
    handleAnswerSubmit s = s := by
  unfold handleAnswerSubmit
  simp [hsel, hlock]

/-- Claim C9, witness at the mounted initial state. -/
theorem submit_without_selection_is_noop_witness :
    handleAnswerSubmit (mountStatsEffect initialHomeState)
      = mountStatsEffect initialHomeState :=
  submit_without_selection_is_noop _ rfl rfl

/-! ## Claim C10 -/

/-- Claim C10: in every transformed question, the option text stored at the
recorded correct index is the decoded text of the raw correct answer, and
the recorded index is the first position of the shuffled (raw) answer list
holding text equal to the correct answer — also when that text duplicates
an incorrect answer. -/
theorem transform_correct_option_text (decode : String → String) (rand : Nat → Nat)
    (raw : RawQuestion) (index : Nat) :
    (transformQuestion decode rand raw index).options[(transformQuestion decode rand raw index).correctAnswerIndex]?
        = some (decode raw.correct_answer)
    ∧ (shuffleArray rand (raw.correct_answer :: raw.incorrect_answers))[(transformQuestion decode rand raw index).correctAnswerIndex]?
        = some raw.correct_answer
    ∧ ∀ k, k < (transformQuestion decode rand raw index).correctAnswerIndex →
        (shuffleArray rand (raw.correct_answer :: raw.incorrect_answers))[k]?
          ≠ some raw.correct_answer := by
  have hmem := correct_mem_shuffled rand raw
  have hlt : (shuffleArray rand (raw.correct_answer :: raw.incorrect_answers)).findIdx
      (fun answer => answer == raw.correct_answer)
      < (shuffleArray rand (raw.correct_answer :: raw.incorrect_answers)).length :=
    List.findIdx_lt_length_of_exists ⟨_, hmem, by simp⟩
  obtain ⟨hp, hmin⟩ := (List.findIdx_eq hlt).mp rfl
  have hidx : (transformQuestion decode rand raw index).correctAnswerIndex
      = (shuffleArray rand (raw.correct_answer :: raw.incorrect_answers)).findIdx
          (fun answer => answer == raw.correct_answer) := rfl
  have hval : (shuffleArray rand (raw.correct_answer :: raw.incorrect_answers))[(shuffleArray rand (raw.correct_answer :: raw.incorrect_answers)).findIdx
      (fun answer => answer == raw.correct_answer)]? = some raw.correct_answer := by
    rw [List.getElem?_eq_getElem hlt]
    simpa using hp
  refine ⟨?_, ?_, ?_⟩
  · have hopts : (transformQuestion decode rand raw index).options
        = (shuffleArray rand (raw.correct_answer :: raw.incorrect_answers)).map decode := rfl
    rw [hopts, hidx, List.getElem?_map, hval]
    rfl
  · rw [hidx]
    exact hval
  · intro k hk hcontra
    rw [hidx] at hk
    have hfalse := hmin k hk
    have hsome := List.getElem?_eq_getElem (Nat.lt_trans hk hlt)
    rw [hcontra] at hsome
    have heq := Option.some.inj hsome
    rw [← heq] at hfalse
    simp at hfalse

/-- Claim C10, witness at a concrete raw question, identity decoding and a
constant random stream. -/
theorem transform_correct_option_text_witness :
    (transformQuestion id (fun k => 0) rawParis 0).options[(transformQuestion id (fun k => 0) rawParis 0).correctAnswerIndex]?
      = some (id rawParis.correct_answer) :=
  (transform_correct_option_text id (fun k => 0) rawParis 0).1

end QuizApp
